import Mathlib

/-!
# whac-a-gopher: the per-gopher timed state machine

A shallow embedding of `gopher.go`.  One loop iteration of `handleEvent` and of
`updateStatus` is a function on the gopher state; everything the iteration reads
from outside the struct is an explicit argument:

* `ctxDone` : whether `ctx.Done()` is ready,
* `pick`    : the scheduler's choice among the ready cases of the `select`,
* `now`     : the reading of `time.Now()` taken in the iteration,
* `rnd`     : the raw values behind the calls of `r.Intn` made in the iteration.

The two buffered channels are part of the state (number of buffered signals and
capacity).  `sync.WaitGroup` and `sync.RWMutex` carry no data and are not part of
the state.  In the first part an iteration is taken as one atomic step.  Two finer
views follow: the operations on the mutex and on the fields that an iteration
performs, in program order (lock discipline), and the two goroutines advancing
one locked section or one unlocked field access at a time (interleaved
execution); run without interleaving, the steps of an iteration give the atomic
iteration.  The last part is the hammer index of `main.go`.
-/

namespace WhacAGopher

/-! ## Constants (`gopher.go`, lines 11-31) -/

/-- EyeShape is `type EyeShape int`. -/
abbrev EyeShape := Int

/-- GopherStatus is `type GopherStatus int`. -/
abbrev GopherStatus := Int

/-- EyeX is the first constant of the block: `iota = 0`. -/
def EyeX : EyeShape := 0
/-- EyeLeft is the second constant of the block: `iota = 1`. -/
def EyeLeft : EyeShape := 1
/-- EyeRight is the third constant of the block: `iota = 2`. -/
def EyeRight : EyeShape := 2
/-- Hide is the fourth constant of the same block, so `iota = 3` where it is declared. -/
def Hide : GopherStatus := 3
/-- Peak continues the block: `iota = 4`. -/
def Peak : GopherStatus := 4
/-- Dizzy continues the block: `iota = 5`. -/
def Dizzy : GopherStatus := 5

/-! ## `time.Duration`, `time.Time`, `rand.Rand` -/

/-- Duration is `time.Duration`, an `int64` count of nanoseconds. -/
abbrev Duration := Int

/-- Two's complement reduction of an integer to the `int64` range. -/
def wrapInt64 (x : Int) : Int := (x + 2 ^ 63) % 2 ^ 64 - 2 ^ 63

/-- Millisecond is `time.Millisecond`. -/
def Millisecond : Duration := 1000000

/-- Product of two `Duration` values at run time (`int64`, wraps on overflow). -/
def Duration.mul (a b : Duration) : Duration := wrapInt64 (a * b)

/-- Sum of two `Duration` values at run time (`int64`, wraps on overflow). -/
def Duration.add (a b : Duration) : Duration := wrapInt64 (a + b)

/-- Time is `time.Time`, an instant with nanosecond precision: the number of
nanoseconds elapsed since the zero `Time`. -/
abbrev Time := Int

/-- Time.zero is the zero value of `time.Time`, the value of a field that a
composite literal does not set. -/
def Time.zero : Time := 0

/-- Time.Add is `t.Add(d)`: the instant `d` after `t`. -/
def Time.Add (t : Time) (d : Duration) : Time := t + d

/-- Time.After is `t.After(u)`: whether `t` is strictly after `u`. -/
def Time.After (t u : Time) : Bool := decide (u < t)

/-- Intn is `r.Intn(n)`: a value of `[0, n)`.  `raw` is the generator's raw value
behind the call; every value below `n` is the result for some `raw`. -/
def Intn (n : Nat) (raw : Nat) : Int := ((raw % n : Nat) : Int)

/-- Draws holds the raw values behind the (at most three) calls of `r.Intn` of
one loop iteration, in the order of the calls. -/
structure Draws where
  d0 : Nat
  d1 : Nat
  d2 : Nat
deriving DecidableEq, Repr

/-! ## Channels -/

/-- Chan is a `chan struct{}`: the elements carry no data, so a channel is the
number of buffered elements and its capacity. -/
structure Chan where
  len : Nat
  cap : Nat
deriving DecidableEq, Repr

/-- makeChan is `make(chan struct{}, n)`. -/
def makeChan (n : Nat) : Chan := { len := 0, cap := n }

/-- A receive can proceed when an element is buffered. -/
def Chan.ready (c : Chan) : Bool := decide (0 < c.len)

/-- Chan.recv removes one buffered element. -/
def Chan.recv (c : Chan) : Chan := { c with len := c.len - 1 }

/-- Chan.send is a producer's `ch <- struct{}{}`: it completes when the buffer has
room; otherwise the producer stays blocked and the channel is as before. -/
def Chan.send (c : Chan) : Chan :=
  if c.len < c.cap then { c with len := c.len + 1 } else c

/-! ## The gopher (`gopher.go`, lines 41-60 and 143-155) -/

/-- Gopher is the data of `type Gopher struct`. -/
structure Gopher where
  status : GopherStatus
  eye : EyeShape
  HeadCh : Chan
  ButtCh : Chan
  dizzyUntil : Time
  peakUntil : Time
  rollEyeUntil : Time
deriving DecidableEq, Repr

/-- NewGopher is `NewGopher()`; the three deadlines are not set by the literal. -/
def NewGopher : Gopher :=
  { eye := EyeX
    HeadCh := makeChan 1
    ButtCh := makeChan 1
    status := Hide
    dizzyUntil := Time.zero
    peakUntil := Time.zero
    rollEyeUntil := Time.zero }

/-- Eye is `(g *Gopher) Eye()`. -/
def Gopher.Eye (g : Gopher) : EyeShape := g.eye

/-- Status is `(g *Gopher) Status()`. -/
def Gopher.Status (g : Gopher) : GopherStatus := g.status

/-! ## `select` -/

/-- SelCase names the cases of the `select` of `handleEvent`, in source order. -/
inductive SelCase where
  | done
  | head
  | butt
  | dflt
deriving DecidableEq, Repr

/-- The communication cases of the `select` of `handleEvent` that can proceed, in
source order. -/
def readyCases (ctxDone : Bool) (g : Gopher) : List SelCase :=
  (if ctxDone then [SelCase.done] else []) ++
  (if g.HeadCh.ready then [SelCase.head] else []) ++
  (if g.ButtCh.ready then [SelCase.butt] else [])

/-- The case a `select` runs: when no communication can proceed, the `default`
case; otherwise one of those that can, chosen by the runtime (Go chooses by a
uniform pseudo-random selection, here the argument `pick`). -/
def selectCase (ready : List SelCase) (pick : Nat) : SelCase :=
  match ready with
  | [] => SelCase.dflt
  | c :: cs => (c :: cs).getD (pick % (cs.length + 1)) SelCase.dflt

/-! ## `handleEvent` (`gopher.go`, lines 75-105) -/

/-- The body of `case <-g.HeadCh:`, the signal already received. -/
def onHead (now : Time) (g : Gopher) : Gopher :=
  if g.Status ≠ Hide then
    { g with status := Dizzy, eye := EyeX,
             dizzyUntil := Time.Add now (500 * Millisecond) }
  else g

/-- The body of `case <-g.ButtCh:`, the signal already received. -/
def onButt (now : Time) (rnd : Draws) (g : Gopher) : Gopher :=
  if g.Status = Hide then
    { g with status := Peak, eye := 1 + Intn 2 rnd.d0,
             rollEyeUntil := Time.Add now (Duration.mul (Intn 500 rnd.d1) Millisecond),
             peakUntil := Time.Add now
               (Duration.add (Duration.mul (Intn 2000 rnd.d2) Millisecond)
                 (100 * Millisecond)) }
  else g

/-- One iteration of the loop of `handleEvent`: the new state, and whether the
function returned. -/
def handleEventTick (ctxDone : Bool) (pick : Nat) (now : Time) (rnd : Draws)
    (g : Gopher) : Gopher × Bool :=
  match selectCase (readyCases ctxDone g) pick with
  | SelCase.done => (g, true)
  | SelCase.head => (onHead now { g with HeadCh := g.HeadCh.recv }, false)
  | SelCase.butt => (onButt now rnd { g with ButtCh := g.ButtCh.recv }, false)
  | SelCase.dflt => (g, false)

/-! ## `updateStatus` (`gopher.go`, lines 107-141) -/

/-- The `switch g.Status()` of `updateStatus`. -/
def updateSwitch (now : Time) (rnd : Draws) (g : Gopher) : Gopher :=
  if g.Status = Dizzy then
    if Time.After now g.dizzyUntil then { g with status := Hide } else g
  else if g.Status = Peak then
    if Time.After now g.peakUntil then { g with status := Hide }
    else if Time.After now g.rollEyeUntil then
      { g with eye := EyeLeft + Intn 2 rnd.d0,
               rollEyeUntil := Time.Add now (Duration.mul (Intn 500 rnd.d1) Millisecond) }
    else g
  else g

/-- One iteration of the loop of `updateStatus`: the new state, and whether the
function returned. -/
def updateStatusTick (ctxDone : Bool) (now : Time) (rnd : Draws) (g : Gopher) :
    Gopher × Bool :=
  if ctxDone then (g, true) else (updateSwitch now rnd g, false)

/-! ## Runs -/

/-- One atomic step of a gopher and its producers: a producer's send into one of
the two channels, an iteration of `handleEvent`, or an iteration of
`updateStatus`. -/
inductive Step : Gopher → Gopher → Prop where
  | sendHead (g : Gopher) : Step g { g with HeadCh := g.HeadCh.send }
  | sendButt (g : Gopher) : Step g { g with ButtCh := g.ButtCh.send }
  | handleEvent (ctxDone : Bool) (pick : Nat) (now : Time) (rnd : Draws) (g : Gopher) :
      Step g (handleEventTick ctxDone pick now rnd g).1
  | updateStatus (ctxDone : Bool) (now : Time) (rnd : Draws) (g : Gopher) :
      Step g (updateStatusTick ctxDone now rnd g).1

/-- The states a gopher made by `NewGopher()` can be in after finitely many steps. -/
inductive Reachable : Gopher → Prop where
  | init : Reachable NewGopher
  | step {g g' : Gopher} : Reachable g → Step g g' → Reachable g'


/-- The five data fields of a gopher that the two loops write: the status, the
eye, and the three deadlines (the channels left out). -/
def Gopher.fields (g : Gopher) : GopherStatus × EyeShape × Time × Time × Time :=
  (g.status, g.eye, g.peakUntil, g.rollEyeUntil, g.dizzyUntil)

/-- Runs of `n` consecutive iterations of `handleEvent` each of which receives
from `ButtCh`.  Before each iteration the producers may have changed what the two
channels hold (`head`, `butt`). -/
inductive PokeRun : Nat → Gopher → Gopher → Prop where
  | zero (g : Gopher) : PokeRun 0 g g
  | succ {n : Nat} {g g1 : Gopher} (head butt : Chan) (ctxDone : Bool) (pick : Nat)
      (now : Time) (rnd : Draws) :
      PokeRun n g g1 →
      selectCase (readyCases ctxDone { g1 with HeadCh := head, ButtCh := butt }) pick
        = SelCase.butt →
      PokeRun (n + 1) g
        (handleEventTick ctxDone pick now rnd { g1 with HeadCh := head, ButtCh := butt }).1

/-- A run of iterations of `updateStatus`, none of them cancelled, one per
element of the list: the clock reading and the raw random values of the
iteration. -/
def runUpdates : List (Time × Draws) → Gopher → Gopher
  | [], g => g
  | u :: us, g => runUpdates us (updateStatusTick false u.1 u.2 g).1

/-! ## Example states -/

/-- A fresh gopher with a poke pending. -/
def pokedNew : Gopher := { NewGopher with ButtCh := NewGopher.ButtCh.send }

/-- The state after `pokedNew` is served at time `1000`: peaking, looking left. -/
def peaking : Gopher := (handleEventTick false 0 1000 ⟨0, 0, 0⟩ pokedNew).1

/-- The state after the peak of `peaking` has timed out: hidden, still looking left. -/
def hiddenLookingLeft : Gopher := (updateStatusTick false 3000001000 ⟨0, 0, 0⟩ peaking).1

/-- The state `peaking` with a strike pending. -/
def peakingStruck : Gopher := { peaking with HeadCh := peaking.HeadCh.send }

/-- A fresh gopher with a strike pending. -/
def struckNew : Gopher := { NewGopher with HeadCh := NewGopher.HeadCh.send }

/-- The state `peaking` with both a strike and a poke pending. -/
def peakingBoth : Gopher :=
  { peaking with HeadCh := peaking.HeadCh.send, ButtCh := peaking.ButtCh.send }

/-- The state after `peakingStruck` is served at time `2000`: dizzy until
`500002000`. -/
def dizzied : Gopher := (handleEventTick false 0 2000 ⟨0, 0, 0⟩ peakingStruck).1

/-! ## Lock discipline

The five data fields and the operations on the `RWMutex` and on the fields that a
goroutine performs, in program order. -/

/-- Field names the data fields of `Gopher` that the two loops read and write. -/
inductive Field where
  | status
  | eye
  | dizzyUntil
  | peakUntil
  | rollEyeUntil
deriving DecidableEq, Repr

/-- Op is one operation of a goroutine on the mutex or on a field. -/
inductive Op where
  | lock
  | unlock
  | rlock
  | runlock
  | read (f : Field)
  | write (f : Field)
deriving DecidableEq, Repr

/-- Held says how the goroutine itself holds the mutex. -/
inductive Held where
  | free
  | shared
  | exclusive
deriving DecidableEq, Repr

/-- The way the goroutine holds the mutex after an operation. -/
def Held.after (h : Held) : Op → Held
  | Op.lock => Held.exclusive
  | Op.unlock => Held.free
  | Op.rlock => Held.shared
  | Op.runlock => Held.free
  | Op.read _ => h
  | Op.write _ => h

/-- Whether an operation is covered by the mutex as the goroutine holds it: a read
needs the lock read-held or write-held, a write needs it write-held. -/
def Op.covered (h : Held) : Op → Bool
  | Op.read _ => decide (h ≠ Held.free)
  | Op.write _ => decide (h = Held.exclusive)
  | _ => true

/-- The field operations of a sequence that are performed without the mutex held
as they need it, starting with the mutex held as `h`. -/
def uncovered : Held → List Op → List Op
  | _, [] => []
  | h, op :: ops =>
    (if op.covered h then [] else [op]) ++ uncovered (h.after op) ops

/-- Whether an operation reads or writes one of the three deadlines. -/
def Op.onDeadline : Op → Bool
  | Op.read f => decide (f = Field.dizzyUntil ∨ f = Field.peakUntil ∨ f = Field.rollEyeUntil)
  | Op.write f => decide (f = Field.dizzyUntil ∨ f = Field.peakUntil ∨ f = Field.rollEyeUntil)
  | _ => false

/-- The operations of `(g *Gopher) Status()`: `RLock`, the read, the deferred
`RUnlock`. -/
def statusOps : List Op := [Op.rlock, Op.read Field.status, Op.runlock]

/-- The operations of `(g *Gopher) Eye()`. -/
def eyeOps : List Op := [Op.rlock, Op.read Field.eye, Op.runlock]

/-- The operations of one iteration of `handleEvent`, in program order
(`gopher.go`, lines 78-101). -/
def handleEventOps (ctxDone : Bool) (pick : Nat) (g : Gopher) : List Op :=
  match selectCase (readyCases ctxDone g) pick with
  | SelCase.done => []
  | SelCase.head =>
    statusOps ++
    (if g.Status ≠ Hide then
      [Op.lock, Op.write Field.status, Op.write Field.eye, Op.unlock,
       Op.write Field.dizzyUntil]
    else [])
  | SelCase.butt =>
    statusOps ++
    (if g.Status = Hide then
      [Op.lock, Op.write Field.status, Op.write Field.eye,
       Op.write Field.rollEyeUntil, Op.write Field.peakUntil, Op.unlock]
    else [])
  | SelCase.dflt => []

/-- The operations of one iteration of `updateStatus`, in program order
(`gopher.go`, lines 110-138). -/
def updateStatusOps (ctxDone : Bool) (now : Time) (g : Gopher) : List Op :=
  if ctxDone then []
  else
    statusOps ++
    (if g.Status = Dizzy then
      [Op.read Field.dizzyUntil] ++
      (if Time.After now g.dizzyUntil then [Op.lock, Op.write Field.status, Op.unlock]
       else [])
    else if g.Status = Peak then
      [Op.read Field.peakUntil] ++
      (if Time.After now g.peakUntil then [Op.lock, Op.write Field.status, Op.unlock]
       else
        [Op.read Field.rollEyeUntil] ++
        (if Time.After now g.rollEyeUntil then
          [Op.lock, Op.write Field.eye, Op.write Field.rollEyeUntil, Op.unlock]
         else []))
    else [])

/-! ## Interleaved execution

The two goroutines of a gopher, each advancing by one atomic step at a time: a
step is the `select`, one section run under the mutex (a call of `Status()`, or a
`Lock() ... Unlock()` block), or one access of a field made without the mutex. -/

/-- HPc is the point `handleEvent` has reached between two of its steps. -/
inductive HPc where
  /-- at `select` (line 78) -/
  | select
  /-- after the receive from `HeadCh`, before `g.Status() != Hide` (line 82) -/
  | headCheck
  /-- before the locked block of lines 84-87 -/
  | headLocked
  /-- before the assignment to `dizzyUntil` of line 88 -/
  | headDeadline
  /-- after the receive from `ButtCh` and the reading of `now` (line 91), before
  `g.Status() == Hide` -/
  | buttCheck (now : Time)
  /-- before the locked block of lines 93-98 -/
  | buttLocked (now : Time)
  /-- after `return` (line 80) -/
  | returned
deriving DecidableEq, Repr

/-- UPc is the point `updateStatus` has reached between two of its steps. -/
inductive UPc where
  /-- at `select` (line 110) -/
  | top
  /-- before `switch g.Status()` (line 116) -/
  | switch
  /-- in `case Dizzy`, before the test of line 118 -/
  | dizzyCheck
  /-- before the locked block of lines 119-121 -/
  | dizzyLocked
  /-- in `case Peak` with `now` read (line 124), before the test of line 125 -/
  | peakCheck (now : Time)
  /-- before the locked block of lines 126-128 -/
  | peakLocked
  /-- before the test of line 130 -/
  | rollCheck (now : Time)
  /-- before the locked block of lines 131-134 -/
  | rollLocked (now : Time)
  /-- after `return` (line 112) -/
  | returned
deriving DecidableEq, Repr

/-- Sys is a gopher together with the points its two goroutines have reached. -/
structure Sys where
  g : Gopher
  h : HPc
  u : UPc
deriving DecidableEq, Repr

/-- One step of the goroutine of `handleEvent`.  `now` is the reading of
`time.Now()` if the step takes one, `rnd` the raw random values if it draws. -/
def hStep (ctxDone : Bool) (pick : Nat) (now : Time) (rnd : Draws) (s : Sys) : Sys :=
  match s.h with
  | HPc.select =>
    match selectCase (readyCases ctxDone s.g) pick with
    | SelCase.done => { s with h := HPc.returned }
    | SelCase.head =>
      { s with g := { s.g with HeadCh := s.g.HeadCh.recv }, h := HPc.headCheck }
    | SelCase.butt =>
      { s with g := { s.g with ButtCh := s.g.ButtCh.recv }, h := HPc.buttCheck now }
    | SelCase.dflt => s
  | HPc.headCheck =>
    if s.g.Status ≠ Hide then { s with h := HPc.headLocked }
    else { s with h := HPc.select }
  | HPc.headLocked =>
    { s with g := { s.g with status := Dizzy, eye := EyeX }, h := HPc.headDeadline }
  | HPc.headDeadline =>
    { s with g := { s.g with dizzyUntil := Time.Add now (500 * Millisecond) },
             h := HPc.select }
  | HPc.buttCheck t =>
    if s.g.Status = Hide then { s with h := HPc.buttLocked t }
    else { s with h := HPc.select }
  | HPc.buttLocked t =>
    { s with
      g := { s.g with
        status := Peak, eye := 1 + Intn 2 rnd.d0,
        rollEyeUntil := Time.Add t (Duration.mul (Intn 500 rnd.d1) Millisecond),
        peakUntil := Time.Add t
          (Duration.add (Duration.mul (Intn 2000 rnd.d2) Millisecond)
            (100 * Millisecond)) },
      h := HPc.select }
  | HPc.returned => s

/-- One step of the goroutine of `updateStatus`. -/
def uStep (ctxDone : Bool) (now : Time) (rnd : Draws) (s : Sys) : Sys :=
  match s.u with
  | UPc.top => if ctxDone then { s with u := UPc.returned } else { s with u := UPc.switch }
  | UPc.switch =>
    if s.g.Status = Dizzy then { s with u := UPc.dizzyCheck }
    else if s.g.Status = Peak then { s with u := UPc.peakCheck now }
    else { s with u := UPc.top }
  | UPc.dizzyCheck =>
    if Time.After now s.g.dizzyUntil then { s with u := UPc.dizzyLocked }
    else { s with u := UPc.top }
  | UPc.dizzyLocked => { s with g := { s.g with status := Hide }, u := UPc.top }
  | UPc.peakCheck t =>
    if Time.After t s.g.peakUntil then { s with u := UPc.peakLocked }
    else { s with u := UPc.rollCheck t }
  | UPc.peakLocked => { s with g := { s.g with status := Hide }, u := UPc.top }
  | UPc.rollCheck t =>
    if Time.After t s.g.rollEyeUntil then { s with u := UPc.rollLocked t }
    else { s with u := UPc.top }
  | UPc.rollLocked t =>
    { s with
      g := { s.g with
        eye := EyeLeft + Intn 2 rnd.d0,
        rollEyeUntil := Time.Add t (Duration.mul (Intn 500 rnd.d1) Millisecond) },
      u := UPc.top }
  | UPc.returned => s

/-- The steps of `handleEvent` that complete the iteration in progress, all with
the same clock reading and random values, no other goroutine in between. -/
def hFinish (now : Time) (rnd : Draws) : Nat → Sys → Sys
  | 0, s => s
  | n + 1, s =>
    if s.h = HPc.select ∨ s.h = HPc.returned then s
    else hFinish now rnd n (hStep false 0 now rnd s)

/-- The steps of `updateStatus` that complete the iteration in progress, no other
goroutine in between. -/
def uFinish (now : Time) (rnd : Draws) : Nat → Sys → Sys
  | 0, s => s
  | n + 1, s =>
    if s.u = UPc.top ∨ s.u = UPc.returned then s
    else uFinish now rnd n (uStep false now rnd s)

/-- Both goroutines at the top of their loops. -/
def Sys.start (g : Gopher) : Sys := { g := g, h := HPc.select, u := UPc.top }

/-- The state in which `handleEvent`, started on `peakingStruck`, has received the
strike and run the locked block of lines 84-87 (clock reading `2000`) and stands
before the assignment of line 88. -/
def struckBeforeDeadline : Sys :=
  hStep false 0 2000 ⟨0, 0, 0⟩ (hStep false 0 2000 ⟨0, 0, 0⟩
    (hStep false 0 2000 ⟨0, 0, 0⟩ (Sys.start peakingStruck)))

/-- The interleaving in which `updateStatus` runs between the `Unlock` of line 87
and the assignment of line 88: from `peakingStruck`, `handleEvent` receives the
strike and sets the status to `Dizzy` (steps at clock reading `2000`), then
`updateStatus` runs one whole iteration at clock reading `3000`. -/
def raceBeforeDeadline : Sys :=
  uStep false 3000 ⟨0, 0, 0⟩ (uStep false 3000 ⟨0, 0, 0⟩ (uStep false 3000 ⟨0, 0, 0⟩
    (uStep false 3000 ⟨0, 0, 0⟩ struckBeforeDeadline)))

/-- The state in which `updateStatus`, started on `peakingStruck` at clock reading
`200001000`, has found the status `Peak` and the peak deadline passed and stands
before the locked block of lines 126-128, and `handleEvent` has then served the
strike completely at the same clock reading: the status is `Dizzy` and
`dizzyUntil` is `700001000`. -/
def struckAfterPeakTest : Sys :=
  hStep false 0 200001000 ⟨0, 0, 0⟩ (hStep false 0 200001000 ⟨0, 0, 0⟩
    (hStep false 0 200001000 ⟨0, 0, 0⟩ (hStep false 0 200001000 ⟨0, 0, 0⟩
      (uStep false 200001000 ⟨0, 0, 0⟩ (uStep false 200001000 ⟨0, 0, 0⟩
        (uStep false 200001000 ⟨0, 0, 0⟩ (Sys.start peakingStruck)))))))

/-- The interleaving in which `handleEvent` serves a strike between the test of
line 125 and the locked block of lines 126-128: `updateStatus` then runs that
block. -/
def raceAfterPeakTest : Sys := uStep false 200001000 ⟨0, 0, 0⟩ struckAfterPeakTest

/-! ## The hammer index (`main.go`, lines 13-18 and 48) -/

/-- GAME_W is the constant of `main.go`. -/
def GAME_W : Int := 600
/-- GAME_H is the constant of `main.go`. -/
def GAME_H : Int := 600
/-- GOPHER_W is the constant of `main.go`. -/
def GOPHER_W : Int := 200
/-- GOPHER_H is the constant of `main.go`. -/
def GOPHER_H : Int := 200

/-- The index `hammerIdx` computed for the mouse point `(x, y)`; the division of
Go integers truncates toward zero. -/
def hammerIdx (x y : Int) : Int :=
  Int.tdiv x GOPHER_W + Int.tdiv y GOPHER_H * Int.tdiv GAME_W GOPHER_W

/-- The number of cells of the grid whose two dimensions `main` passes to
`makeGophers` (line 25).  `makeGophers` is not among the sources; that its slice
has one gopher per cell is how the index is meant to be used. -/
def gridCells : Int := Int.tdiv GAME_W GOPHER_W * Int.tdiv GAME_H GOPHER_H

/-! ## Shared lemmas -/

theorem status_range_of_reachable (g : Gopher) (h : Reachable g) :
    g.status = Hide ∨ g.status = Peak ∨ g.status = Dizzy := by
  induction h with
  | init => decide
  | step _ hs ih =>
    cases hs with
    | sendHead => exact ih
    | sendButt => exact ih
    | handleEvent c p now rnd =>
      unfold handleEventTick
      split <;> simp only [onHead, onButt, Gopher.Status] <;> try exact ih
      · split <;> simp_all
      · split <;> simp_all
    | updateStatus c now rnd =>
      unfold updateStatusTick updateSwitch
      simp only [Gopher.Status]
      split_ifs <;> simp_all

theorem dizzy_eye_of_reachable (g : Gopher) (h : Reachable g) :
    g.status = Dizzy → g.eye = EyeX := by
  induction h with
  | init => decide
  | step _ hs ih =>
    cases hs with
    | sendHead => exact ih
    | sendButt => exact ih
    | handleEvent c p now rnd =>
      unfold handleEventTick
      split <;> simp only [onHead, onButt, Gopher.Status] <;> try exact ih
      · split <;> simp_all
      · split <;> simp_all [Peak, Dizzy]
    | updateStatus c now rnd =>
      unfold updateStatusTick updateSwitch
      simp only [Gopher.Status]
      split_ifs <;> simp_all [Hide, Dizzy, Peak]

theorem reachable_hiddenLookingLeft : Reachable hiddenLookingLeft :=
  Reachable.step (Reachable.step (Reachable.step Reachable.init (Step.sendButt _))
    (Step.handleEvent false 0 1000 ⟨0, 0, 0⟩ _)) (Step.updateStatus false 3000001000 ⟨0, 0, 0⟩ _)

theorem intn_two (raw : Nat) : Intn 2 raw = 0 ∨ Intn 2 raw = 1 := by
  unfold Intn
  have h : raw % 2 = 0 ∨ raw % 2 = 1 := Nat.mod_two_eq_zero_or_one raw
  rcases h with h | h <;> simp [h]


theorem wrapInt64_of_range (x : Int) (hlo : -(2 ^ 63) ≤ x) (hhi : x < 2 ^ 63) :
    wrapInt64 x = x := by
  unfold wrapInt64
  omega

theorem intn_range (n raw : Nat) (hn : 0 < n) : 0 ≤ Intn n raw ∧ Intn n raw < n := by
  unfold Intn
  have h := Nat.mod_lt raw hn
  omega

theorem roll_delay_exact (raw : Nat) :
    Duration.mul (Intn 500 raw) Millisecond = Intn 500 raw * 1000000 ∧
      0 ≤ Intn 500 raw * 1000000 ∧ Intn 500 raw * 1000000 ≤ 499000000 := by
  have h := intn_range 500 raw (by decide)
  refine ⟨?_, by omega, by omega⟩
  unfold Duration.mul Millisecond
  exact wrapInt64_of_range _ (by omega) (by omega)

theorem peak_delay_exact (raw : Nat) :
    Duration.add (Duration.mul (Intn 2000 raw) Millisecond) (100 * Millisecond)
        = Intn 2000 raw * 1000000 + 100000000 ∧
      100000000 ≤ Intn 2000 raw * 1000000 + 100000000 ∧
      Intn 2000 raw * 1000000 + 100000000 ≤ 2099000000 := by
  have h := intn_range 2000 raw (by decide)
  refine ⟨?_, by omega, by omega⟩
  unfold Duration.add Duration.mul Millisecond
  rw [wrapInt64_of_range (Intn 2000 raw * 1000000) (by omega) (by omega)]
  exact wrapInt64_of_range _ (by omega) (by omega)

theorem onHead_chans (now : Time) (g : Gopher) :
    (onHead now g).HeadCh = g.HeadCh ∧ (onHead now g).ButtCh = g.ButtCh := by
  unfold onHead
  split <;> simp

theorem onButt_chans (now : Time) (rnd : Draws) (g : Gopher) :
    (onButt now rnd g).HeadCh = g.HeadCh ∧ (onButt now rnd g).ButtCh = g.ButtCh := by
  unfold onButt
  split <;> simp

theorem onButt_of_up (now : Time) (rnd : Draws) (g : Gopher)
    (hst : g.status = Peak ∨ g.status = Dizzy) : onButt now rnd g = g := by
  have hne : g.status ≠ Hide := by
    rcases hst with h | h <;> rw [h] <;> decide
  simp [onButt, Gopher.Status, hne]

theorem updateSwitch_frame (now : Time) (rnd : Draws) (g : Gopher) :
    (updateSwitch now rnd g).HeadCh = g.HeadCh ∧
    (updateSwitch now rnd g).ButtCh = g.ButtCh ∧
    (updateSwitch now rnd g).peakUntil = g.peakUntil ∧
    (updateSwitch now rnd g).dizzyUntil = g.dizzyUntil := by
  unfold updateSwitch
  split_ifs <;> simp

theorem pokeRun_fields {n : Nat} {g g' : Gopher} (hrun : PokeRun n g g')
    (hst : g.status = Peak ∨ g.status = Dizzy) : g'.fields = g.fields := by
  induction hrun with
  | zero => rfl
  | @succ m g0 g1 head butt ctxDone pick now rnd _ hsel ih =>
    have ih1 := ih hst
    have hst1 : g1.status = Peak ∨ g1.status = Dizzy := by
      have h := congrArg Prod.fst ih1
      simp only [Gopher.fields] at h
      rw [h]; exact hst
    have hup : ({ g1 with HeadCh := head, ButtCh := butt.recv } : Gopher).status = Peak ∨
        ({ g1 with HeadCh := head, ButtCh := butt.recv } : Gopher).status = Dizzy := hst1
    simp only [handleEventTick, hsel, onButt_of_up now rnd _ hup]
    exact ih1

theorem runUpdates_frame (us : List (Time × Draws)) (g : Gopher) :
    (runUpdates us g).HeadCh = g.HeadCh ∧ (runUpdates us g).ButtCh = g.ButtCh ∧
    (runUpdates us g).peakUntil = g.peakUntil ∧
    (runUpdates us g).dizzyUntil = g.dizzyUntil := by
  induction us generalizing g with
  | nil => exact ⟨rfl, rfl, rfl, rfl⟩
  | cons u us ih =>
    obtain ⟨h1, h2, h3, h4⟩ := ih (updateStatusTick false u.1 u.2 g).1
    obtain ⟨f1, f2, f3, f4⟩ := updateSwitch_frame u.1 u.2 g
    simp only [runUpdates]
    simp only [updateStatusTick, Bool.false_eq_true, if_false] at h1 h2 h3 h4 ⊢
    exact ⟨h1.trans f1, h2.trans f2, h3.trans f3, h4.trans f4⟩

theorem runUpdates_stays_peak (us : List (Time × Draws)) (g : Gopher)
    (hst : g.status = Peak) (hus : ∀ u ∈ us, u.1 ≤ g.peakUntil) :
    (runUpdates us g).status = Peak := by
  induction us generalizing g with
  | nil => exact hst
  | cons u us ih =>
    have hu : ¬ g.peakUntil < u.1 := not_lt.mpr (hus u (List.mem_cons_self u us))
    have hpd : Peak ≠ Dizzy := by decide
    simp only [runUpdates]
    apply ih
    · simp only [updateStatusTick, updateSwitch, Gopher.Status, hst, hpd, Time.After, hu,
        Bool.false_eq_true, if_false, decide_False]
      split_ifs <;> simp_all
    · intro v hv
      have hp : (updateStatusTick false u.1 u.2 g).1.peakUntil = g.peakUntil := by
        simp only [updateStatusTick, Bool.false_eq_true, if_false]
        exact (updateSwitch_frame u.1 u.2 g).2.2.1
      rw [hp]
      exact hus v (List.mem_cons_of_mem u hv)

theorem runUpdates_stays_dizzy (us : List (Time × Draws)) (g : Gopher)
    (hst : g.status = Dizzy) (hus : ∀ u ∈ us, u.1 ≤ g.dizzyUntil) :
    runUpdates us g = g := by
  induction us with
  | nil => rfl
  | cons u us ih =>
    have hu : ¬ g.dizzyUntil < u.1 := not_lt.mpr (hus u (List.mem_cons_self u us))
    have hstep : (updateStatusTick false u.1 u.2 g).1 = g := by
      simp [updateStatusTick, updateSwitch, Gopher.Status, hst, Time.After, hu]
    simp only [runUpdates, hstep]
    exact ih (fun v hv => hus v (List.mem_cons_of_mem u hv))

theorem eye_range_of_reachable (g : Gopher) (h : Reachable g) :
    g.eye = EyeX ∨ g.eye = EyeLeft ∨ g.eye = EyeRight := by
  induction h with
  | init => decide
  | step _ hs ih =>
    cases hs with
    | sendHead => exact ih
    | sendButt => exact ih
    | handleEvent c p now rnd =>
      unfold handleEventTick
      split <;> simp only [onHead, onButt, Gopher.Status] <;> try exact ih
      · split <;> simp_all [EyeX]
      · split
        · rcases intn_two rnd.d0 with h | h <;> simp [h, EyeLeft, EyeRight]
        · exact ih
    | updateStatus c now rnd =>
      unfold updateStatusTick updateSwitch
      simp only [Gopher.Status]
      split_ifs <;> try exact ih
      rcases intn_two rnd.d0 with h | h <;> simp [h, EyeLeft, EyeRight]

theorem peak_eye_of_reachable (g : Gopher) (h : Reachable g) :
    g.status = Peak → g.eye = EyeLeft ∨ g.eye = EyeRight := by
  induction h with
  | init => decide
  | step _ hs ih =>
    cases hs with
    | sendHead => exact ih
    | sendButt => exact ih
    | handleEvent c p now rnd =>
      unfold handleEventTick
      split <;> simp only [onHead, onButt, Gopher.Status] <;> try exact ih
      · split
        · simp [Peak, Dizzy]
        · exact ih
      · split
        · intro _
          rcases intn_two rnd.d0 with h | h <;> simp [h, EyeLeft, EyeRight]
        · exact ih
    | updateStatus c now rnd =>
      unfold updateStatusTick updateSwitch
      simp only [Gopher.Status]
      split_ifs <;> try exact ih
      · simp [Hide, Peak]
      · simp [Hide, Peak]
      · intro _
        rcases intn_two rnd.d0 with h | h <;> simp [h, EyeLeft, EyeRight]

theorem chan_send_inv (c : Chan) (h : c.len ≤ 1 ∧ c.cap = 1) :
    c.send.len ≤ 1 ∧ c.send.cap = 1 := by
  unfold Chan.send
  split
  · simp only
    omega
  · exact h

theorem chans_of_reachable (g : Gopher) (h : Reachable g) :
    (g.HeadCh.len ≤ 1 ∧ g.HeadCh.cap = 1) ∧ (g.ButtCh.len ≤ 1 ∧ g.ButtCh.cap = 1) := by
  induction h with
  | init => decide
  | step _ hs ih =>
    cases hs with
    | sendHead => exact ⟨chan_send_inv _ ih.1, ih.2⟩
    | sendButt => exact ⟨ih.1, chan_send_inv _ ih.2⟩
    | handleEvent c p now rnd =>
      unfold handleEventTick
      split
      · exact ih
      · rw [(onHead_chans now _).1, (onHead_chans now _).2]
        simp only [Chan.recv]
        omega
      · rw [(onButt_chans now rnd _).1, (onButt_chans now rnd _).2]
        simp only [Chan.recv]
        omega
      · exact ih
    | updateStatus c now rnd =>
      unfold updateStatusTick
      split
      · exact ih
      · rename_i g0 _ _
        obtain ⟨f1, f2, _, _⟩ := updateSwitch_frame now rnd g0
        show ((updateSwitch now rnd g0).HeadCh.len ≤ 1 ∧ (updateSwitch now rnd g0).HeadCh.cap = 1) ∧
          (updateSwitch now rnd g0).ButtCh.len ≤ 1 ∧ (updateSwitch now rnd g0).ButtCh.cap = 1
        rw [f1, f2]
        exact ih

theorem selectCase_sound (ctxDone : Bool) (pick : Nat) (g : Gopher) :
    (selectCase (readyCases ctxDone g) pick = SelCase.done → ctxDone = true) ∧
    (selectCase (readyCases ctxDone g) pick = SelCase.head → 0 < g.HeadCh.len) ∧
    (selectCase (readyCases ctxDone g) pick = SelCase.butt → 0 < g.ButtCh.len) ∧
    (selectCase (readyCases ctxDone g) pick = SelCase.dflt →
      ctxDone = false ∧ g.HeadCh.len = 0 ∧ g.ButtCh.len = 0) := by
  have hmem : ∀ l : List SelCase, l ≠ [] → selectCase l pick ∈ l := by
    intro l hl
    cases l with
    | nil => exact absurd rfl hl
    | cons c cs =>
      simp only [selectCase]
      have hlt : pick % (cs.length + 1) < (c :: cs).length :=
        Nat.mod_lt _ (Nat.succ_pos _)
      rw [List.getD_eq_getElem _ _ hlt]
      exact List.getElem_mem _
  by_cases hnil : readyCases ctxDone g = []
  · have hsel : selectCase (readyCases ctxDone g) pick = SelCase.dflt := by
      rw [hnil]; rfl
    rw [hsel]
    refine ⟨by simp, by simp, by simp, fun _ => ?_⟩
    cases ctxDone <;> simp [readyCases, Chan.ready] at hnil
    exact ⟨rfl, hnil.1, hnil.2⟩
  · have h := hmem _ hnil
    refine ⟨fun e => ?_, fun e => ?_, fun e => ?_, fun e => ?_⟩ <;> rw [e] at h
    · cases ctxDone
      · simp only [readyCases, Chan.ready, List.mem_append] at h
        rcases h with (h | h) | h <;> split_ifs at h <;> simp_all
      · rfl
    · simp only [readyCases, Chan.ready, List.mem_append] at h
      rcases h with (h | h) | h
      · split_ifs at h <;> simp_all
      · split_ifs at h with h1 <;> simp_all
      · split_ifs at h <;> simp_all
    · simp only [readyCases, Chan.ready, List.mem_append] at h
      rcases h with (h | h) | h
      · split_ifs at h <;> simp_all
      · split_ifs at h <;> simp_all
      · split_ifs at h with h1 <;> simp_all
    · simp only [readyCases, Chan.ready, List.mem_append] at h
      rcases h with (h | h) | h <;> split_ifs at h <;> simp_all

theorem hSteps_refine_tick (ctxDone : Bool) (pick : Nat) (now : Time) (rnd : Draws)
    (g : Gopher) (u : UPc) :
    hFinish now rnd 3 (hStep ctxDone pick now rnd { g := g, h := HPc.select, u := u })
      = { g := (handleEventTick ctxDone pick now rnd g).1,
          h := if (handleEventTick ctxDone pick now rnd g).2 then HPc.returned
               else HPc.select,
          u := u } := by
  cases hsel : selectCase (readyCases ctxDone g) pick
  · simp [hStep, handleEventTick, hsel, hFinish]
  · by_cases hs : g.status = Hide
    · simp [hStep, handleEventTick, hsel, hFinish, onHead, Gopher.Status, hs]
    · simp [hStep, handleEventTick, hsel, hFinish, onHead, Gopher.Status, hs]
  · by_cases hs : g.status = Hide
    · simp [hStep, handleEventTick, hsel, hFinish, onButt, Gopher.Status, hs]
    · simp [hStep, handleEventTick, hsel, hFinish, onButt, Gopher.Status, hs]
  · simp [hStep, handleEventTick, hsel, hFinish]

theorem uSteps_refine_tick (ctxDone : Bool) (now : Time) (rnd : Draws)
    (g : Gopher) (h : HPc) :
    uFinish now rnd 4 (uStep ctxDone now rnd { g := g, h := h, u := UPc.top })
      = { g := (updateStatusTick ctxDone now rnd g).1,
          h := h,
          u := if (updateStatusTick ctxDone now rnd g).2 then UPc.returned
               else UPc.top } := by
  have hpd : Peak ≠ Dizzy := by decide
  cases ctxDone
  · simp only [uStep, updateStatusTick, updateSwitch, Bool.false_eq_true, if_false]
    by_cases hd : g.status = Dizzy
    · by_cases h1 : Time.After now g.dizzyUntil = true
      · simp [uFinish, uStep, Gopher.Status, hd, h1]
      · simp [uFinish, uStep, Gopher.Status, hd, h1]
    · by_cases hp : g.status = Peak
      · by_cases h1 : Time.After now g.peakUntil = true
        · simp [uFinish, uStep, Gopher.Status, hpd, hp, h1]
        · by_cases h2 : Time.After now g.rollEyeUntil = true
          · simp [uFinish, uStep, Gopher.Status, hpd, hp, h1, h2]
          · simp [uFinish, uStep, Gopher.Status, hpd, hp, h1, h2]
      · simp [uFinish, uStep, Gopher.Status, hd, hp]
  · simp [uFinish, uStep, updateStatusTick]

theorem reachable_peaking : Reachable peaking :=
  Reachable.step (Reachable.step Reachable.init (Step.sendButt _))
    (Step.handleEvent false 0 1000 ⟨0, 0, 0⟩ _)

/-! ## Claims -/

/-- C1 (counterexample): the state `hiddenLookingLeft` is reached from `NewGopher()`
by a poke, an iteration of `handleEvent` and an iteration of `updateStatus` after
the peak deadline; its eye is `EyeLeft`, not `EyeX`, and its status is `Hide`, not
`Peak`. -/
theorem C1_counterexample :
    Reachable hiddenLookingLeft ∧ hiddenLookingLeft.eye ≠ EyeX ∧
      hiddenLookingLeft.status ≠ Peak ∧ hiddenLookingLeft.status = Hide :=
  ⟨reachable_hiddenLookingLeft, by decide, by decide, by decide⟩

/-- C1 (amended): in every state reachable from `NewGopher()`, an eye other than
`EyeX` implies that the status is `Peak` or `Hide`; a `Dizzy` gopher always has
the eye `EyeX`. -/
theorem C1_eye_open_implies_peak_or_hide (g : Gopher) (h : Reachable g)
    (heye : g.eye ≠ EyeX) : g.status = Peak ∨ g.status = Hide := by
  rcases status_range_of_reachable g h with hs | hs | hs
  · exact Or.inr hs
  · exact Or.inl hs
  · exact absurd (dizzy_eye_of_reachable g h hs) heye

/-- Witness for C1: the theorem applied at a concrete state. -/
theorem C1_eye_open_implies_peak_or_hide_witness :
    Reachable hiddenLookingLeft ∧ hiddenLookingLeft.eye ≠ EyeX ∧
      (hiddenLookingLeft.status = Peak ∨ hiddenLookingLeft.status = Hide) :=
  ⟨reachable_hiddenLookingLeft, by decide,
    C1_eye_open_implies_peak_or_hide hiddenLookingLeft reachable_hiddenLookingLeft
      (by decide)⟩

/-- C2: from a state whose status is `Peak` or `Dizzy`, an iteration of
`handleEvent` that receives from `HeadCh` at clock reading `now` ends with status
`Dizzy`, eye `EyeX` and `dizzyUntil` 500 ms (500000000 ns) after `now`, and with
`peakUntil` and `rollEyeUntil` as before. -/
theorem C2_strike_while_up (g : Gopher) (ctxDone : Bool) (pick : Nat) (now : Time)
    (rnd : Draws)
    (hsel : selectCase (readyCases ctxDone g) pick = SelCase.head)
    (hst : g.status = Peak ∨ g.status = Dizzy) :
    (handleEventTick ctxDone pick now rnd g).1.status = Dizzy ∧
    (handleEventTick ctxDone pick now rnd g).1.eye = EyeX ∧
    (handleEventTick ctxDone pick now rnd g).1.dizzyUntil = now + 500000000 ∧
    (handleEventTick ctxDone pick now rnd g).1.peakUntil = g.peakUntil ∧
    (handleEventTick ctxDone pick now rnd g).1.rollEyeUntil = g.rollEyeUntil := by
  have hne : g.status ≠ Hide := by
    rcases hst with h | h <;> rw [h] <;> decide
  simp [handleEventTick, hsel, onHead, Gopher.Status, hne, Time.Add, Millisecond]

/-- Witness for C2: the theorem applied at a concrete state. -/
theorem C2_strike_while_up_witness :
    (handleEventTick false 0 2000 ⟨0, 0, 0⟩ peakingStruck).1.status = Dizzy ∧
    (handleEventTick false 0 2000 ⟨0, 0, 0⟩ peakingStruck).1.eye = EyeX ∧
    (handleEventTick false 0 2000 ⟨0, 0, 0⟩ peakingStruck).1.dizzyUntil = 2000 + 500000000 ∧
    (handleEventTick false 0 2000 ⟨0, 0, 0⟩ peakingStruck).1.peakUntil
      = peakingStruck.peakUntil ∧
    (handleEventTick false 0 2000 ⟨0, 0, 0⟩ peakingStruck).1.rollEyeUntil
      = peakingStruck.rollEyeUntil :=
  C2_strike_while_up peakingStruck false 0 2000 ⟨0, 0, 0⟩ (by decide) (by decide)

/-- C3: from a state whose status is `Hide`, whatever its eye, an iteration of
`handleEvent` that receives from `ButtCh` ends with status `Peak` and an eye that
is `EyeLeft` or `EyeRight`, and with `dizzyUntil` as before. -/
theorem C3_poke_while_hidden (g : Gopher) (ctxDone : Bool) (pick : Nat) (now : Time)
    (rnd : Draws)
    (hsel : selectCase (readyCases ctxDone g) pick = SelCase.butt)
    (hst : g.status = Hide) :
    (handleEventTick ctxDone pick now rnd g).1.status = Peak ∧
    ((handleEventTick ctxDone pick now rnd g).1.eye = EyeLeft ∨
      (handleEventTick ctxDone pick now rnd g).1.eye = EyeRight) ∧
    (handleEventTick ctxDone pick now rnd g).1.dizzyUntil = g.dizzyUntil := by
  simp only [handleEventTick, hsel, onButt, Gopher.Status, hst, if_true, true_and,
    EyeLeft, EyeRight, and_true]
  rcases intn_two rnd.d0 with h | h <;> simp [h]

/-- Witness for C3: the theorem applied at a concrete state. -/
theorem C3_poke_while_hidden_witness :
    (handleEventTick false 7 1000 ⟨1, 2, 3⟩ { hiddenLookingLeft with
        ButtCh := hiddenLookingLeft.ButtCh.send }).1.status = Peak ∧
    ((handleEventTick false 7 1000 ⟨1, 2, 3⟩ { hiddenLookingLeft with
        ButtCh := hiddenLookingLeft.ButtCh.send }).1.eye = EyeLeft ∨
      (handleEventTick false 7 1000 ⟨1, 2, 3⟩ { hiddenLookingLeft with
        ButtCh := hiddenLookingLeft.ButtCh.send }).1.eye = EyeRight) ∧
    (handleEventTick false 7 1000 ⟨1, 2, 3⟩ { hiddenLookingLeft with
        ButtCh := hiddenLookingLeft.ButtCh.send }).1.dizzyUntil
      = hiddenLookingLeft.dizzyUntil :=
  C3_poke_while_hidden { hiddenLookingLeft with ButtCh := hiddenLookingLeft.ButtCh.send }
    false 7 1000 ⟨1, 2, 3⟩ (by decide) (by decide)

/-- C4: from a state whose status is `Hide`, an iteration of `handleEvent` that
receives from `HeadCh` leaves the status, the eye, `dizzyUntil`, `peakUntil` and
`rollEyeUntil` as they were. -/
theorem C4_strike_while_hidden (g : Gopher) (ctxDone : Bool) (pick : Nat) (now : Time)
    (rnd : Draws)
    (hsel : selectCase (readyCases ctxDone g) pick = SelCase.head)
    (hst : g.status = Hide) :
    (handleEventTick ctxDone pick now rnd g).1.status = g.status ∧
    (handleEventTick ctxDone pick now rnd g).1.eye = g.eye ∧
    (handleEventTick ctxDone pick now rnd g).1.dizzyUntil = g.dizzyUntil ∧
    (handleEventTick ctxDone pick now rnd g).1.peakUntil = g.peakUntil ∧
    (handleEventTick ctxDone pick now rnd g).1.rollEyeUntil = g.rollEyeUntil := by
  simp [handleEventTick, hsel, onHead, Gopher.Status, hst]

/-- Witness for C4: the theorem applied at a concrete state. -/
theorem C4_strike_while_hidden_witness :
    (handleEventTick false 0 1000 ⟨0, 0, 0⟩ struckNew).1.status = struckNew.status ∧
    (handleEventTick false 0 1000 ⟨0, 0, 0⟩ struckNew).1.eye = struckNew.eye ∧
    (handleEventTick false 0 1000 ⟨0, 0, 0⟩ struckNew).1.dizzyUntil = struckNew.dizzyUntil ∧
    (handleEventTick false 0 1000 ⟨0, 0, 0⟩ struckNew).1.peakUntil = struckNew.peakUntil ∧
    (handleEventTick false 0 1000 ⟨0, 0, 0⟩ struckNew).1.rollEyeUntil
      = struckNew.rollEyeUntil :=
  C4_strike_while_hidden struckNew false 0 1000 ⟨0, 0, 0⟩ (by decide) (by decide)


/-- C5: from a state whose status is `Peak` or `Dizzy`, an iteration of
`handleEvent` that receives from `ButtCh` leaves the status, the eye, `peakUntil`,
`rollEyeUntil` and `dizzyUntil` as they were; hence after any number `n` of
consecutive such iterations these five fields, `peakUntil` among them, are those
of the start state. -/
theorem C5_poke_while_up_is_noop (g : Gopher)
    (hst : g.status = Peak ∨ g.status = Dizzy) :
    (∀ (ctxDone : Bool) (pick : Nat) (now : Time) (rnd : Draws),
      selectCase (readyCases ctxDone g) pick = SelCase.butt →
      (handleEventTick ctxDone pick now rnd g).1.status = g.status ∧
      (handleEventTick ctxDone pick now rnd g).1.eye = g.eye ∧
      (handleEventTick ctxDone pick now rnd g).1.peakUntil = g.peakUntil ∧
      (handleEventTick ctxDone pick now rnd g).1.rollEyeUntil = g.rollEyeUntil ∧
      (handleEventTick ctxDone pick now rnd g).1.dizzyUntil = g.dizzyUntil) ∧
    (∀ (n : Nat) (g' : Gopher), PokeRun n g g' →
      g'.fields = g.fields ∧ g'.peakUntil = g.peakUntil) := by
  constructor
  · intro ctxDone pick now rnd hsel
    have hup : ({ g with ButtCh := g.ButtCh.recv } : Gopher).status = Peak ∨
        ({ g with ButtCh := g.ButtCh.recv } : Gopher).status = Dizzy := hst
    simp [handleEventTick, hsel, onButt_of_up now rnd _ hup]
  · intro n g' hrun
    have key : g'.fields = g.fields := pokeRun_fields hrun hst
    refine ⟨key, ?_⟩
    have := congrArg (fun p => p.2.2.1) key
    simpa [Gopher.fields] using this

/-- Witness for C5: the theorem applied at a concrete state. -/
theorem C5_poke_while_up_is_noop_witness :
    (peaking.status = Peak ∨ peaking.status = Dizzy) ∧
    (handleEventTick false 0 3000 ⟨1, 2, 3⟩
        { (handleEventTick false 0 2000 ⟨1, 2, 3⟩
            { peaking with HeadCh := makeChan 1, ButtCh := (makeChan 1).send }).1 with
          HeadCh := makeChan 1, ButtCh := (makeChan 1).send }).1.fields = peaking.fields :=
  ⟨by decide,
    ((C5_poke_while_up_is_noop peaking (by decide)).2 2 _
      (PokeRun.succ (makeChan 1) (makeChan 1).send false 0 3000 ⟨1, 2, 3⟩
        (PokeRun.succ (makeChan 1) (makeChan 1).send false 0 2000 ⟨1, 2, 3⟩
          (PokeRun.zero peaking) (by decide))
        (by decide))).1⟩

/-- C6 (counterexample): in the state `peakingBoth` a strike and a poke are both
pending and cancellation is not requested; when the `select` runs the `ButtCh`
case (`pick = 1`), the poke is the signal consumed, the strike is still pending in
`HeadCh` after the iteration, and the strike has not been acted on (the status is
still `Peak`). -/
theorem C6_counterexample :
    peakingBoth.HeadCh.len = 1 ∧ peakingBoth.ButtCh.len = 1 ∧
    peakingBoth.status = Peak ∧
    (handleEventTick false 1 2000 ⟨0, 0, 0⟩ peakingBoth).1.HeadCh.len = 1 ∧
    (handleEventTick false 1 2000 ⟨0, 0, 0⟩ peakingBoth).1.ButtCh.len = 0 ∧
    (handleEventTick false 1 2000 ⟨0, 0, 0⟩ peakingBoth).1.status = Peak := by
  decide

/-- C6 (amended): in an iteration of `handleEvent` with cancellation not requested
and a signal pending in both `HeadCh` and `ButtCh`, the `select` runs one of the
two cases, either being possible; the iteration consumes and acts on the signal
of that case only, and what the other channel holds is unchanged.  In particular
when the strike is the one chosen, the poke is still pending in `ButtCh`. -/
theorem C6_one_of_two_served (g : Gopher) (pick : Nat) (now : Time) (rnd : Draws)
    (hhead : 0 < g.HeadCh.len) (hbutt : 0 < g.ButtCh.len) :
    ((selectCase (readyCases false g) pick = SelCase.head ∧
        handleEventTick false pick now rnd g
          = (onHead now { g with HeadCh := g.HeadCh.recv }, false) ∧
        (handleEventTick false pick now rnd g).1.HeadCh.len = g.HeadCh.len - 1 ∧
        (handleEventTick false pick now rnd g).1.ButtCh = g.ButtCh)
      ∨
      (selectCase (readyCases false g) pick = SelCase.butt ∧
        handleEventTick false pick now rnd g
          = (onButt now rnd { g with ButtCh := g.ButtCh.recv }, false) ∧
        (handleEventTick false pick now rnd g).1.ButtCh.len = g.ButtCh.len - 1 ∧
        (handleEventTick false pick now rnd g).1.HeadCh = g.HeadCh)) ∧
    selectCase (readyCases false g) 0 = SelCase.head ∧
    selectCase (readyCases false g) 1 = SelCase.butt := by
  have hready : readyCases false g = [SelCase.head, SelCase.butt] := by
    simp [readyCases, Chan.ready, hhead, hbutt]
  refine ⟨?_, by simp [hready, selectCase], by simp [hready, selectCase]⟩
  have hpick : pick % 2 = 0 ∨ pick % 2 = 1 := Nat.mod_two_eq_zero_or_one pick
  rcases hpick with h | h
  · left
    have hsel : selectCase (readyCases false g) pick = SelCase.head := by
      simp [hready, selectCase, h]
    refine ⟨hsel, ?_, ?_, ?_⟩
    · simp only [handleEventTick, hsel]
    · simp only [handleEventTick, hsel, (onHead_chans now _).1, Chan.recv]
    · simp only [handleEventTick, hsel, (onHead_chans now _).2]
  · right
    have hsel : selectCase (readyCases false g) pick = SelCase.butt := by
      simp [hready, selectCase, h]
    refine ⟨hsel, ?_, ?_, ?_⟩
    · simp only [handleEventTick, hsel]
    · simp only [handleEventTick, hsel, (onButt_chans now rnd _).2, Chan.recv]
    · simp only [handleEventTick, hsel, (onButt_chans now rnd _).1]

/-- Witness for C6: the theorem applied at a concrete state. -/
theorem C6_one_of_two_served_witness :
    0 < peakingBoth.HeadCh.len ∧ 0 < peakingBoth.ButtCh.len ∧
    selectCase (readyCases false peakingBoth) 0 = SelCase.head ∧
    selectCase (readyCases false peakingBoth) 1 = SelCase.butt :=
  ⟨by decide, by decide,
    (C6_one_of_two_served peakingBoth 0 2000 ⟨0, 0, 0⟩ (by decide) (by decide)).2⟩

/-- C7: from a state whose status is `Dizzy`, an iteration of `updateStatus` at
clock reading `now` ends with status `Hide` if and only if `now` is strictly after
`dizzyUntil`; either way the eye, `dizzyUntil`, `peakUntil` and `rollEyeUntil` are
as before. -/
theorem C7_dizzy_timeout (g : Gopher) (now : Time) (rnd : Draws)
    (hst : g.status = Dizzy) :
    ((updateStatusTick false now rnd g).1.status = Hide ↔ g.dizzyUntil < now) ∧
    (updateStatusTick false now rnd g).1.eye = g.eye ∧
    (updateStatusTick false now rnd g).1.dizzyUntil = g.dizzyUntil ∧
    (updateStatusTick false now rnd g).1.peakUntil = g.peakUntil ∧
    (updateStatusTick false now rnd g).1.rollEyeUntil = g.rollEyeUntil := by
  by_cases h : g.dizzyUntil < now
  · simp [updateStatusTick, updateSwitch, Gopher.Status, hst, Time.After, h]
  · simp [updateStatusTick, updateSwitch, Gopher.Status, hst, Time.After, h, Dizzy, Hide]

/-- Witness for C7: the theorem applied at a concrete state. -/
theorem C7_dizzy_timeout_witness :
    dizzied.status = Dizzy ∧
    ((updateStatusTick false 500002001 ⟨0, 0, 0⟩ dizzied).1.status = Hide
      ↔ dizzied.dizzyUntil < 500002001) ∧
    (updateStatusTick false 500002001 ⟨0, 0, 0⟩ dizzied).1.eye = dizzied.eye :=
  ⟨by decide,
    (C7_dizzy_timeout dizzied 500002001 ⟨0, 0, 0⟩ (by decide)).1,
    (C7_dizzy_timeout dizzied 500002001 ⟨0, 0, 0⟩ (by decide)).2.1⟩

/-- C8: from a state whose status is `Peak`, an iteration of `updateStatus` at
clock reading `now`: if `now` is strictly after `peakUntil`, sets the status to
`Hide` and leaves the eye and the three deadlines as they were; otherwise, if
`now` is strictly after `rollEyeUntil`, keeps the status `Peak`, sets the eye to
`EyeLeft` or `EyeRight`, sets `rollEyeUntil` to `now + d` with `d` between 0 and
500 ms (computed without overflow) and leaves `dizzyUntil` as it was; otherwise
changes nothing.  In each case `peakUntil` is as before. -/
theorem C8_peak_update (g : Gopher) (now : Time) (rnd : Draws)
    (hst : g.status = Peak) :
    (g.peakUntil < now →
      (updateStatusTick false now rnd g).1 = { g with status := Hide }) ∧
    (¬ g.peakUntil < now → g.rollEyeUntil < now →
      (updateStatusTick false now rnd g).1.status = Peak ∧
      ((updateStatusTick false now rnd g).1.eye = EyeLeft ∨
        (updateStatusTick false now rnd g).1.eye = EyeRight) ∧
      (updateStatusTick false now rnd g).1.rollEyeUntil
        = now + Intn 500 rnd.d1 * 1000000 ∧
      0 ≤ Intn 500 rnd.d1 * 1000000 ∧ Intn 500 rnd.d1 * 1000000 ≤ 500000000 ∧
      (updateStatusTick false now rnd g).1.dizzyUntil = g.dizzyUntil) ∧
    (¬ g.peakUntil < now → ¬ g.rollEyeUntil < now →
      (updateStatusTick false now rnd g).1 = g) ∧
    (updateStatusTick false now rnd g).1.peakUntil = g.peakUntil := by
  have hpd : Peak ≠ Dizzy := by decide
  obtain ⟨hmul, hlo, hhi⟩ := roll_delay_exact rnd.d1
  refine ⟨?_, ?_, ?_, ?_⟩
  · intro h
    simp [updateStatusTick, updateSwitch, Gopher.Status, hst, hpd, Time.After, h]
  · intro h1 h2
    simp only [updateStatusTick, updateSwitch, Gopher.Status, hst, hpd, Time.After, h1, h2,
      hmul, Time.Add, EyeLeft, EyeRight]
    simp only [Bool.false_eq_true, if_false, if_true, decide_True, decide_False, true_and]
    refine ⟨?_, hlo, by omega, trivial⟩
    rcases intn_two rnd.d0 with h | h <;> simp [h]
  · intro h1 h2
    simp [updateStatusTick, updateSwitch, Gopher.Status, hst, hpd, Time.After, h1, h2]
  · simp only [updateStatusTick, Bool.false_eq_true, if_false]
    exact (updateSwitch_frame now rnd g).2.2.1

/-- Witness for C8: the theorem applied at a concrete state. -/
theorem C8_peak_update_witness :
    peaking.status = Peak ∧
    (updateStatusTick false 3000001000 ⟨0, 0, 0⟩ peaking).1.peakUntil = peaking.peakUntil :=
  ⟨by decide, (C8_peak_update peaking 3000001000 ⟨0, 0, 0⟩ (by decide)).2.2.2⟩

/-- C9: the scenario poke, strike, decay.  From `NewGopher()` with a poke sent, the
iteration of `handleEvent` at `t0` consumes the poke and gives status `Peak`; the
status is still `Peak` after any iterations of `updateStatus` at times of
`[t0, t1]`; with a strike sent, the iteration of `handleEvent` at `t1`, where
`t0 ≤ t1 ≤ t0 + 70 ms`, consumes the strike and gives status `Dizzy` and eye
`EyeX`; after that the status is `Dizzy` after any iterations of `updateStatus`
at times up to `t1 + 500 ms`, and an iteration of `updateStatus` at a time after
`t1 + 500 ms` then gives status `Hide`. -/
theorem C9_poke_strike_decay (pick0 pick1 : Nat) (rnd0 rnd1 rnd2 : Draws)
    (t0 t1 t2 : Time) (us1 us2 : List (Time × Draws))
    (_h01 : t0 ≤ t1) (h70 : t1 ≤ t0 + 70000000)
    (hus1 : ∀ u ∈ us1, t0 ≤ u.1 ∧ u.1 ≤ t1)
    (hus2 : ∀ u ∈ us2, u.1 ≤ t1 + 500000000)
    (ht2 : t1 + 500000000 < t2) :
    selectCase (readyCases false { NewGopher with ButtCh := NewGopher.ButtCh.send }) pick0
      = SelCase.butt ∧
    (handleEventTick false pick0 t0 rnd0
      { NewGopher with ButtCh := NewGopher.ButtCh.send }).1.status = Peak ∧
    (runUpdates us1 (handleEventTick false pick0 t0 rnd0
      { NewGopher with ButtCh := NewGopher.ButtCh.send }).1).status = Peak ∧
    selectCase (readyCases false
      { runUpdates us1 (handleEventTick false pick0 t0 rnd0
          { NewGopher with ButtCh := NewGopher.ButtCh.send }).1 with
        HeadCh := (runUpdates us1 (handleEventTick false pick0 t0 rnd0
          { NewGopher with ButtCh := NewGopher.ButtCh.send }).1).HeadCh.send }) pick1
      = SelCase.head ∧
    (handleEventTick false pick1 t1 rnd1
      { runUpdates us1 (handleEventTick false pick0 t0 rnd0
          { NewGopher with ButtCh := NewGopher.ButtCh.send }).1 with
        HeadCh := (runUpdates us1 (handleEventTick false pick0 t0 rnd0
          { NewGopher with ButtCh := NewGopher.ButtCh.send }).1).HeadCh.send }).1.status
      = Dizzy ∧
    (handleEventTick false pick1 t1 rnd1
      { runUpdates us1 (handleEventTick false pick0 t0 rnd0
          { NewGopher with ButtCh := NewGopher.ButtCh.send }).1 with
        HeadCh := (runUpdates us1 (handleEventTick false pick0 t0 rnd0
          { NewGopher with ButtCh := NewGopher.ButtCh.send }).1).HeadCh.send }).1.eye
      = EyeX ∧
    (runUpdates us2 (handleEventTick false pick1 t1 rnd1
      { runUpdates us1 (handleEventTick false pick0 t0 rnd0
          { NewGopher with ButtCh := NewGopher.ButtCh.send }).1 with
        HeadCh := (runUpdates us1 (handleEventTick false pick0 t0 rnd0
          { NewGopher with ButtCh := NewGopher.ButtCh.send }).1).HeadCh.send }).1).status
      = Dizzy ∧
    (updateStatusTick false t2 rnd2
      (runUpdates us2 (handleEventTick false pick1 t1 rnd1
        { runUpdates us1 (handleEventTick false pick0 t0 rnd0
            { NewGopher with ButtCh := NewGopher.ButtCh.send }).1 with
          HeadCh := (runUpdates us1 (handleEventTick false pick0 t0 rnd0
            { NewGopher with ButtCh := NewGopher.ButtCh.send }).1).HeadCh.send }).1)).1.status
      = Hide := by
  -- the poke
  have hsel0 : selectCase (readyCases false
      { NewGopher with ButtCh := NewGopher.ButtCh.send }) pick0 = SelCase.butt := by
    simp [readyCases, Chan.ready, Chan.send, NewGopher, makeChan, selectCase, Nat.mod_one]
  obtain ⟨hpk, hlo, _⟩ := peak_delay_exact rnd0.d2
  generalize hg1 : (handleEventTick false pick0 t0 rnd0
      { NewGopher with ButtCh := NewGopher.ButtCh.send }).1 = g1
  have hg1eq : g1 = onButt t0 rnd0
      { NewGopher with ButtCh := NewGopher.ButtCh.send.recv } := by
    rw [← hg1]; simp only [handleEventTick, hsel0]
  have hs1 : g1.status = Peak := by
    rw [hg1eq]; simp [onButt, Gopher.Status, NewGopher]
  have hp1 : g1.peakUntil = t0 + (Intn 2000 rnd0.d2 * 1000000 + 100000000) := by
    rw [hg1eq]; simp [onButt, Gopher.Status, NewGopher, hpk, Time.Add]
  have hh1 : g1.HeadCh = makeChan 1 ∧ g1.ButtCh = makeChan 1 := by
    rw [hg1eq]
    refine ⟨(onButt_chans _ _ _).1, ?_⟩
    rw [(onButt_chans _ _ _).2]
    decide
  -- the updates before the strike
  have hs2 : (runUpdates us1 g1).status = Peak :=
    runUpdates_stays_peak us1 g1 hs1 (fun u hu => by have := (hus1 u hu).2; rw [hp1]; linarith)
  obtain ⟨fh, fb, _, _⟩ := runUpdates_frame us1 g1
  generalize hg2 : runUpdates us1 g1 = g2 at hs2 fh fb
  -- the strike
  have hsel1 : selectCase (readyCases false { g2 with HeadCh := g2.HeadCh.send }) pick1
      = SelCase.head := by
    simp [readyCases, Chan.ready, Chan.send, fh, fb, hh1.1, hh1.2, makeChan, selectCase, Nat.mod_one]
  have hup : ({ g2 with HeadCh := g2.HeadCh.send } : Gopher).status = Peak ∨
      ({ g2 with HeadCh := g2.HeadCh.send } : Gopher).status = Dizzy := Or.inl hs2
  have hne : g2.status ≠ Hide := by rw [hs2]; decide
  generalize hg3 : (handleEventTick false pick1 t1 rnd1
      { g2 with HeadCh := g2.HeadCh.send }).1 = g3
  have hg3eq : g3 = onHead t1 { g2 with HeadCh := g2.HeadCh.send.recv } := by
    rw [← hg3]; simp only [handleEventTick, hsel1]
  have hs3 : g3.status = Dizzy := by
    rw [hg3eq]; simp [onHead, Gopher.Status, hne]
  have he3 : g3.eye = EyeX := by
    rw [hg3eq]; simp [onHead, Gopher.Status, hne]
  have hd3 : g3.dizzyUntil = t1 + 500000000 := by
    rw [hg3eq]; simp [onHead, Gopher.Status, hne, Time.Add, Millisecond]
  -- the decay
  have hg4 : runUpdates us2 g3 = g3 :=
    runUpdates_stays_dizzy us2 g3 hs3 (fun u hu => by rw [hd3]; exact hus2 u hu)
  have hlast : (updateStatusTick false t2 rnd2 g3).1.status = Hide := by
    have hlt : g3.dizzyUntil < t2 := by rw [hd3]; exact ht2
    simp [updateStatusTick, updateSwitch, Gopher.Status, hs3, Time.After, hlt]
  rw [hg4]
  exact ⟨hsel0, hs1, hs2, hsel1, hs3, he3, hs3, hlast⟩

/-- Witness for C9: the theorem applied at a concrete state. -/
theorem C9_poke_strike_decay_witness :
    (updateStatusTick false 550001001 ⟨0, 0, 0⟩
      (runUpdates [(70001000, ⟨0, 0, 0⟩), (550000000, ⟨0, 0, 0⟩)]
        (handleEventTick false 0 50001000 ⟨0, 0, 0⟩
          { runUpdates [(20001000, ⟨1, 1, 1⟩), (40001000, ⟨1, 1, 1⟩)]
              (handleEventTick false 0 1000 ⟨1, 7, 9⟩
                { NewGopher with ButtCh := NewGopher.ButtCh.send }).1 with
            HeadCh := (runUpdates [(20001000, ⟨1, 1, 1⟩), (40001000, ⟨1, 1, 1⟩)]
              (handleEventTick false 0 1000 ⟨1, 7, 9⟩
                { NewGopher with ButtCh := NewGopher.ButtCh.send }).1).HeadCh.send }).1)).1.status
      = Hide :=
  (C9_poke_strike_decay 0 0 ⟨1, 7, 9⟩ ⟨0, 0, 0⟩ ⟨0, 0, 0⟩ 1000 50001000 550001001
    [(20001000, ⟨1, 1, 1⟩), (40001000, ⟨1, 1, 1⟩)]
    [(70001000, ⟨0, 0, 0⟩), (550000000, ⟨0, 0, 0⟩)]
    (by decide) (by decide) (by decide) (by decide) (by decide)).2.2.2.2.2.2.2

/-- C10: the poke transition of `handleEvent` (status `Hide`, the `ButtCh` case
run at clock reading `now`) sets `rollEyeUntil = now + a` and
`peakUntil = now + b`, where `a = r.Intn(500) * 1000000` and
`b = r.Intn(2000) * 1000000 + 100000000` are the exact integer values (the
`int64` product and sum do not wrap), `0 ≤ a ≤ 500 ms` and
`100 ms ≤ b ≤ 2100 ms`. -/
theorem C10_poke_deadlines (g : Gopher) (ctxDone : Bool) (pick : Nat) (now : Time)
    (rnd : Draws)
    (hsel : selectCase (readyCases ctxDone g) pick = SelCase.butt)
    (hst : g.status = Hide) :
    (handleEventTick ctxDone pick now rnd g).1.rollEyeUntil
      = now + Intn 500 rnd.d1 * 1000000 ∧
    (handleEventTick ctxDone pick now rnd g).1.peakUntil
      = now + (Intn 2000 rnd.d2 * 1000000 + 100000000) ∧
    Duration.mul (Intn 500 rnd.d1) Millisecond = Intn 500 rnd.d1 * 1000000 ∧
    Duration.mul (Intn 2000 rnd.d2) Millisecond = Intn 2000 rnd.d2 * 1000000 ∧
    Duration.add (Duration.mul (Intn 2000 rnd.d2) Millisecond) (100 * Millisecond)
      = Intn 2000 rnd.d2 * 1000000 + 100000000 ∧
    0 ≤ Intn 500 rnd.d1 * 1000000 ∧ Intn 500 rnd.d1 * 1000000 ≤ 500000000 ∧
    100000000 ≤ Intn 2000 rnd.d2 * 1000000 + 100000000 ∧
    Intn 2000 rnd.d2 * 1000000 + 100000000 ≤ 2100000000 := by
  obtain ⟨hroll, hrlo, hrhi⟩ := roll_delay_exact rnd.d1
  obtain ⟨hpeak, hplo, hphi⟩ := peak_delay_exact rnd.d2
  have hr2 := intn_range 2000 rnd.d2 (by decide)
  have hmul2 : Duration.mul (Intn 2000 rnd.d2) Millisecond = Intn 2000 rnd.d2 * 1000000 := by
    unfold Duration.mul Millisecond
    exact wrapInt64_of_range _ (by omega) (by omega)
  refine ⟨?_, ?_, hroll, hmul2, hpeak, hrlo, by omega, hplo, by omega⟩
  · simp [handleEventTick, hsel, onButt, Gopher.Status, hst, hroll, Time.Add]
  · simp [handleEventTick, hsel, onButt, Gopher.Status, hst, hpeak, Time.Add]

/-- Witness for C10: the theorem applied at a concrete state. -/
theorem C10_poke_deadlines_witness :
    (handleEventTick false 0 1000 ⟨1, 499, 1999⟩ pokedNew).1.rollEyeUntil
      = 1000 + Intn 500 499 * 1000000 ∧
    (handleEventTick false 0 1000 ⟨1, 499, 1999⟩ pokedNew).1.peakUntil
      = 1000 + (Intn 2000 1999 * 1000000 + 100000000) :=
  ⟨(C10_poke_deadlines pokedNew false 0 1000 ⟨1, 499, 1999⟩ (by decide) (by decide)).1,
    (C10_poke_deadlines pokedNew false 0 1000 ⟨1, 499, 1999⟩ (by decide) (by decide)).2.1⟩


/-- C11: in every state reachable from `NewGopher()` by atomic iterations of
`handleEvent` and `updateStatus` (and sends of the producers), status `Peak`
implies that the eye is `EyeLeft` or `EyeRight`; in particular it is not `EyeX`. -/
theorem C11_peak_eye_open (g : Gopher) (h : Reachable g) (hst : g.status = Peak) :
    (g.eye = EyeLeft ∨ g.eye = EyeRight) ∧ g.eye ≠ EyeX := by
  have he := peak_eye_of_reachable g h hst
  refine ⟨he, ?_⟩
  rcases he with e | e <;> rw [e] <;> decide

/-- Witness for C11: the theorem applied at a concrete state. -/
theorem C11_peak_eye_open_witness :
    Reachable peaking ∧ peaking.status = Peak ∧
      (peaking.eye = EyeLeft ∨ peaking.eye = EyeRight) ∧ peaking.eye ≠ EyeX :=
  ⟨reachable_peaking, by decide,
    C11_peak_eye_open peaking reachable_peaking (by decide)⟩

/-- C12: in every state reachable from `NewGopher()` the status is one of `Hide`,
`Peak`, `Dizzy` and the eye is one of `EyeX`, `EyeLeft`, `EyeRight`; the three
status constants are pairwise distinct integers, and so are the three eye
constants, so exactly one of each holds. -/
theorem C12_status_and_eye_enumerated (g : Gopher) (h : Reachable g) :
    (g.status = Hide ∨ g.status = Peak ∨ g.status = Dizzy) ∧
    (g.eye = EyeX ∨ g.eye = EyeLeft ∨ g.eye = EyeRight) ∧
    (Hide ≠ Peak ∧ Hide ≠ Dizzy ∧ Peak ≠ Dizzy) ∧
    (EyeX ≠ EyeLeft ∧ EyeX ≠ EyeRight ∧ EyeLeft ≠ EyeRight) :=
  ⟨status_range_of_reachable g h, eye_range_of_reachable g h, by decide, by decide⟩

/-- Witness for C12: the theorem applied at a concrete state. -/
theorem C12_status_and_eye_enumerated_witness :
    Reachable hiddenLookingLeft ∧
    (hiddenLookingLeft.status = Hide ∨ hiddenLookingLeft.status = Peak ∨
      hiddenLookingLeft.status = Dizzy) ∧
    (hiddenLookingLeft.eye = EyeX ∨ hiddenLookingLeft.eye = EyeLeft ∨
      hiddenLookingLeft.eye = EyeRight) :=
  ⟨reachable_hiddenLookingLeft,
    (C12_status_and_eye_enumerated hiddenLookingLeft reachable_hiddenLookingLeft).1,
    (C12_status_and_eye_enumerated hiddenLookingLeft reachable_hiddenLookingLeft).2.1⟩

/-- C13 (counterexample): in the state `peakingStruck` a strike is pending; an
iteration of `handleEvent` that begins with cancellation requested and whose
`select` runs the `HeadCh` case (`pick = 1`) does not return, consumes the strike
and changes the status, the eye and `dizzyUntil`. -/
theorem C13_counterexample :
    peakingStruck.HeadCh.len = 1 ∧
    (handleEventTick true 1 2000 ⟨0, 0, 0⟩ peakingStruck).2 = false ∧
    (handleEventTick true 1 2000 ⟨0, 0, 0⟩ peakingStruck).1.HeadCh.len = 0 ∧
    (handleEventTick true 1 2000 ⟨0, 0, 0⟩ peakingStruck).1.status
      ≠ peakingStruck.status ∧
    (handleEventTick true 1 2000 ⟨0, 0, 0⟩ peakingStruck).1.eye ≠ peakingStruck.eye ∧
    (handleEventTick true 1 2000 ⟨0, 0, 0⟩ peakingStruck).1.dizzyUntil
      ≠ peakingStruck.dizzyUntil := by
  decide

/-- C13 (amended): in an iteration of `handleEvent` that begins with cancellation
requested, the `select` can run the cancellation case, and it does whenever
neither channel holds a signal; when it runs that case the function returns in
this iteration and the whole state, the two channels included, is as before. -/
theorem C13_cancel_case_returns_unchanged (g : Gopher) (pick : Nat) (now : Time)
    (rnd : Draws) :
    (selectCase (readyCases true g) pick = SelCase.done →
      handleEventTick true pick now rnd g = (g, true)) ∧
    (g.HeadCh.len = 0 → g.ButtCh.len = 0 →
      selectCase (readyCases true g) pick = SelCase.done) ∧
    selectCase (readyCases true g) 0 = SelCase.done := by
  refine ⟨fun hsel => ?_, fun hh hb => ?_, ?_⟩
  · simp only [handleEventTick, hsel]
  · simp [readyCases, Chan.ready, hh, hb, selectCase, Nat.mod_one]
  · simp [readyCases, selectCase]

/-- Witness for C13: the theorem applied at a concrete state. -/
theorem C13_cancel_case_returns_unchanged_witness :
    handleEventTick true 0 2000 ⟨0, 0, 0⟩ peakingStruck = (peakingStruck, true) ∧
    handleEventTick true 5 2000 ⟨0, 0, 0⟩ peaking = (peaking, true) :=
  ⟨(C13_cancel_case_returns_unchanged peakingStruck 0 2000 ⟨0, 0, 0⟩).1 (by decide),
    (C13_cancel_case_returns_unchanged peaking 5 2000 ⟨0, 0, 0⟩).1
      ((C13_cancel_case_returns_unchanged peaking 5 2000 ⟨0, 0, 0⟩).2.1
        (by decide) (by decide))⟩

/-- C14: in every state reachable from `NewGopher()` each of `HeadCh` and `ButtCh`
has capacity 1 and holds at most one signal.  An iteration of `handleEvent` adds
no signal to either channel and removes at most one in total: when the `select`
runs the `HeadCh` case a signal was pending there and is removed, whatever the
status, and `ButtCh` is as before; likewise for the `ButtCh` case; in the two
other cases both channels are as before. -/
theorem C14_mailboxes (g : Gopher) (ctxDone : Bool) (pick : Nat) (now : Time)
    (rnd : Draws) :
    (Reachable g →
      g.HeadCh.len ≤ 1 ∧ g.HeadCh.cap = 1 ∧ g.ButtCh.len ≤ 1 ∧ g.ButtCh.cap = 1) ∧
    (handleEventTick ctxDone pick now rnd g).1.HeadCh.len ≤ g.HeadCh.len ∧
    (handleEventTick ctxDone pick now rnd g).1.ButtCh.len ≤ g.ButtCh.len ∧
    g.HeadCh.len + g.ButtCh.len
      ≤ (handleEventTick ctxDone pick now rnd g).1.HeadCh.len
        + (handleEventTick ctxDone pick now rnd g).1.ButtCh.len + 1 ∧
    (selectCase (readyCases ctxDone g) pick = SelCase.head →
      0 < g.HeadCh.len ∧
      (handleEventTick ctxDone pick now rnd g).1.HeadCh.len + 1 = g.HeadCh.len ∧
      (handleEventTick ctxDone pick now rnd g).1.ButtCh = g.ButtCh) ∧
    (selectCase (readyCases ctxDone g) pick = SelCase.butt →
      0 < g.ButtCh.len ∧
      (handleEventTick ctxDone pick now rnd g).1.ButtCh.len + 1 = g.ButtCh.len ∧
      (handleEventTick ctxDone pick now rnd g).1.HeadCh = g.HeadCh) ∧
    (selectCase (readyCases ctxDone g) pick = SelCase.done ∨
        selectCase (readyCases ctxDone g) pick = SelCase.dflt →
      (handleEventTick ctxDone pick now rnd g).1 = g) := by
  obtain ⟨_, hhead, hbutt, _⟩ := selectCase_sound ctxDone pick g
  have key :
      (selectCase (readyCases ctxDone g) pick = SelCase.head →
        0 < g.HeadCh.len ∧
        (handleEventTick ctxDone pick now rnd g).1.HeadCh.len + 1 = g.HeadCh.len ∧
        (handleEventTick ctxDone pick now rnd g).1.ButtCh = g.ButtCh) ∧
      (selectCase (readyCases ctxDone g) pick = SelCase.butt →
        0 < g.ButtCh.len ∧
        (handleEventTick ctxDone pick now rnd g).1.ButtCh.len + 1 = g.ButtCh.len ∧
        (handleEventTick ctxDone pick now rnd g).1.HeadCh = g.HeadCh) ∧
      (selectCase (readyCases ctxDone g) pick = SelCase.done ∨
          selectCase (readyCases ctxDone g) pick = SelCase.dflt →
        (handleEventTick ctxDone pick now rnd g).1 = g) := by
    refine ⟨fun hsel => ?_, fun hsel => ?_, fun hsel => ?_⟩
    · have hpos := hhead hsel
      simp only [handleEventTick, hsel, (onHead_chans now _).1, (onHead_chans now _).2,
        Chan.recv]
      exact ⟨hpos, by omega, trivial⟩
    · have hpos := hbutt hsel
      simp only [handleEventTick, hsel, (onButt_chans now rnd _).1,
        (onButt_chans now rnd _).2, Chan.recv]
      exact ⟨hpos, by omega, trivial⟩
    · rcases hsel with hsel | hsel <;> simp only [handleEventTick, hsel]
  refine ⟨fun hr => ?_, ?_, ?_, ?_, key⟩
  · obtain ⟨⟨a, b⟩, c, d⟩ := chans_of_reachable g hr
    exact ⟨a, b, c, d⟩
  all_goals
    cases hsel : selectCase (readyCases ctxDone g) pick
    · have e := key.2.2 (Or.inl hsel)
      have e1 := congrArg (fun x => x.HeadCh.len) e
      have e2 := congrArg (fun x => x.ButtCh.len) e
      simp only at e1 e2
      omega
    · obtain ⟨_, h1, h2⟩ := key.1 hsel
      have h3 := congrArg Chan.len h2
      omega
    · obtain ⟨_, h1, h2⟩ := key.2.1 hsel
      have h3 := congrArg Chan.len h2
      omega
    · have e := key.2.2 (Or.inr hsel)
      have e1 := congrArg (fun x => x.HeadCh.len) e
      have e2 := congrArg (fun x => x.ButtCh.len) e
      simp only at e1 e2
      omega

/-- Witness for C14: the theorem applied at a concrete state. -/
theorem C14_mailboxes_witness :
    struckNew.HeadCh.len = 1 ∧
    (handleEventTick false 0 1000 ⟨0, 0, 0⟩ struckNew).1.HeadCh.len + 1
      = struckNew.HeadCh.len ∧
    (handleEventTick false 0 1000 ⟨0, 0, 0⟩ struckNew).1.ButtCh = struckNew.ButtCh ∧
    (handleEventTick false 0 1000 ⟨0, 0, 0⟩ struckNew).1.status = struckNew.status :=
  ⟨by decide,
    ((C14_mailboxes struckNew false 0 1000 ⟨0, 0, 0⟩).2.2.2.2.1 (by decide)).2.1,
    ((C14_mailboxes struckNew false 0 1000 ⟨0, 0, 0⟩).2.2.2.2.1 (by decide)).2.2,
    by decide⟩

/-- C15 (counterexample): the iteration of `handleEvent` that serves the strike
pending in `peakingStruck` writes `dizzyUntil` with the mutex not held (line 88
comes after `Unlock`), and the iteration of `updateStatus` on the state `dizzied`
reads `dizzyUntil` with the mutex not held (line 118). -/
theorem C15_counterexample :
    Op.write Field.dizzyUntil ∈ uncovered Held.free (handleEventOps false 0 peakingStruck) ∧
    (Op.write Field.dizzyUntil).onDeadline = true ∧
    Op.read Field.dizzyUntil ∈ uncovered Held.free (updateStatusOps false 3000 dizzied) ∧
    (Op.read Field.dizzyUntil).onDeadline = true := by
  decide

/-- C15 (amended): in an iteration of `handleEvent` every read and write of a
field is made with the mutex held as it needs (read-held or write-held for a
read, write-held for a write), the write of `dizzyUntil` left aside; in an
iteration of `updateStatus` every write of a field and every read of `status` is
made so, and the only operations made without the mutex are the reads of the
three deadlines.  So every access to `status` and `eye` and every write of
`peakUntil` and `rollEyeUntil` is under the mutex. -/
theorem C15_lock_covers_status_eye_and_peak_roll_writes (ctxDone : Bool) (pick : Nat)
    (now : Time) (g : Gopher) :
    (∀ op ∈ uncovered Held.free (handleEventOps ctxDone pick g),
      op = Op.write Field.dizzyUntil) ∧
    (∀ op ∈ uncovered Held.free (updateStatusOps ctxDone now g),
      op = Op.read Field.dizzyUntil ∨ op = Op.read Field.peakUntil ∨
        op = Op.read Field.rollEyeUntil) := by
  constructor
  · unfold handleEventOps
    cases selectCase (readyCases ctxDone g) pick
    · simp [uncovered]
    · by_cases hs : g.Status = Hide
      · simp [hs, statusOps, uncovered, Op.covered, Held.after]
      · simp [hs, statusOps, uncovered, Op.covered, Held.after]
    · by_cases hs : g.Status = Hide
      · simp [hs, statusOps, uncovered, Op.covered, Held.after]
      · simp [hs, statusOps, uncovered, Op.covered, Held.after]
    · simp [uncovered]
  · unfold updateStatusOps
    cases ctxDone
    · by_cases hd : g.Status = Dizzy
      · by_cases h1 : Time.After now g.dizzyUntil = true
        · simp [hd, h1, statusOps, uncovered, Op.covered, Held.after]
        · simp [hd, h1, statusOps, uncovered, Op.covered, Held.after]
      · by_cases hp : g.Status = Peak
        · by_cases h1 : Time.After now g.peakUntil = true
          · simp [hd, hp, h1, statusOps, uncovered, Op.covered, Held.after]
          · by_cases h2 : Time.After now g.rollEyeUntil = true
            · simp [hd, hp, h1, h2, statusOps, uncovered, Op.covered, Held.after]
            · simp [hd, hp, h1, h2, statusOps, uncovered, Op.covered, Held.after]
        · simp [hd, hp, statusOps, uncovered, Op.covered, Held.after]
    · simp [uncovered]

/-- Witness for C15: the theorem applied at a concrete state. -/
theorem C15_lock_covers_status_eye_and_peak_roll_writes_witness :
    (∀ op ∈ uncovered Held.free (handleEventOps false 0 pokedNew),
      op = Op.write Field.dizzyUntil) ∧
    Op.write Field.peakUntil ∈ handleEventOps false 0 pokedNew ∧
    Op.write Field.rollEyeUntil ∈ handleEventOps false 0 pokedNew :=
  ⟨(C15_lock_covers_status_eye_and_peak_roll_writes false 0 0 pokedNew).1,
    by decide, by decide⟩

/-- C16 (the code at two failing interleavings).  First: started on
`peakingStruck`, the steps of `handleEvent` through the locked block of lines
84-87 make the status `Dizzy` at clock reading `2000`, with `dizzyUntil` still the
zero time; one iteration of `updateStatus` run before line 88, at clock reading
`3000`, makes the status `Hide`, although `3000` is not after `2000 + 500 ms` and
no further strike is pending.  Second: when `updateStatus` has passed the test of
line 125 and `handleEvent` then serves a strike at clock reading `200001000`
(status `Dizzy`, `dizzyUntil = 700001000`), the locked block of lines 126-128 makes
the status `Hide` at that same clock reading. -/
theorem C16_hide_before_deadline_when_interleaved :
    (struckBeforeDeadline.g.status = Dizzy ∧
      struckBeforeDeadline.h = HPc.headDeadline ∧
      struckBeforeDeadline.g.dizzyUntil = Time.zero ∧
      raceBeforeDeadline.g.status = Hide ∧
      raceBeforeDeadline.g.HeadCh.len = 0 ∧
      (3000 : Time) ≤ Time.Add 2000 (500 * Millisecond) ∧
      (hStep false 0 2000 ⟨0, 0, 0⟩ raceBeforeDeadline).g.status = Hide ∧
      (hStep false 0 2000 ⟨0, 0, 0⟩ raceBeforeDeadline).g.dizzyUntil = 500002000) ∧
    (struckAfterPeakTest.g.status = Dizzy ∧
      struckAfterPeakTest.g.dizzyUntil = 700001000 ∧
      struckAfterPeakTest.h = HPc.select ∧
      struckAfterPeakTest.u = UPc.peakLocked ∧
      raceAfterPeakTest.g.status = Hide ∧
      raceAfterPeakTest.g.HeadCh.len = 0) :=
  ⟨⟨by decide, by decide, by decide, by decide, by decide, by decide, by decide,
      by decide⟩,
    ⟨by decide, by decide, by decide, by decide, by decide, by decide⟩⟩

/-- C17: `NewGopher()` has status `Hide`, eye `EyeX`, and two channels `HeadCh`
and `ButtCh` that are empty and of capacity 1; `Status()` and `Eye()` return
`Hide` and `EyeX` for it, and neither accessor writes a field. -/
theorem C17_new_gopher :
    NewGopher.status = Hide ∧ NewGopher.eye = EyeX ∧
    NewGopher.HeadCh.len = 0 ∧ NewGopher.HeadCh.cap = 1 ∧
    NewGopher.ButtCh.len = 0 ∧ NewGopher.ButtCh.cap = 1 ∧
    NewGopher.Status = Hide ∧ NewGopher.Eye = EyeX ∧
    (∀ f : Field, Op.write f ∉ statusOps) ∧ (∀ f : Field, Op.write f ∉ eyeOps) := by
  refine ⟨rfl, rfl, rfl, rfl, rfl, rfl, rfl, rfl, ?_, ?_⟩ <;> intro f <;> cases f <;> decide

/-- C18: for one atomic iteration of either loop from a state whose status is
`Hide`, `Peak` or `Dizzy`.  `handleEvent`: the status is unchanged, or goes from
`Hide` to `Peak` in the `ButtCh` case, or from `Peak` to `Dizzy` in the `HeadCh`
case.  `updateStatus`: the status is unchanged, or goes from `Peak` to `Hide`,
or from `Dizzy` to `Hide`.  No iteration takes `Hide` to `Dizzy` or `Dizzy` to
`Peak`, and an iteration of `updateStatus` on a `Hide` state changes nothing. -/
theorem C18_status_transitions (g : Gopher) (ctxDone : Bool) (pick : Nat) (now : Time)
    (rnd : Draws)
    (hrange : g.status = Hide ∨ g.status = Peak ∨ g.status = Dizzy) :
    ((handleEventTick ctxDone pick now rnd g).1.status = g.status ∨
      (g.status = Hide ∧ (handleEventTick ctxDone pick now rnd g).1.status = Peak ∧
        selectCase (readyCases ctxDone g) pick = SelCase.butt) ∨
      (g.status = Peak ∧ (handleEventTick ctxDone pick now rnd g).1.status = Dizzy ∧
        selectCase (readyCases ctxDone g) pick = SelCase.head)) ∧
    ((updateStatusTick ctxDone now rnd g).1.status = g.status ∨
      (g.status = Peak ∧ (updateStatusTick ctxDone now rnd g).1.status = Hide) ∨
      (g.status = Dizzy ∧ (updateStatusTick ctxDone now rnd g).1.status = Hide)) ∧
    ¬ (g.status = Hide ∧ (handleEventTick ctxDone pick now rnd g).1.status = Dizzy) ∧
    ¬ (g.status = Hide ∧ (updateStatusTick ctxDone now rnd g).1.status = Dizzy) ∧
    ¬ (g.status = Dizzy ∧ (handleEventTick ctxDone pick now rnd g).1.status = Peak) ∧
    ¬ (g.status = Dizzy ∧ (updateStatusTick ctxDone now rnd g).1.status = Peak) ∧
    (g.status = Hide → (updateStatusTick ctxDone now rnd g).1 = g) := by
  have hhp : Hide ≠ Peak := by decide
  have hhd : Hide ≠ Dizzy := by decide
  have hpd : Peak ≠ Dizzy := by decide
  have hH : (handleEventTick ctxDone pick now rnd g).1.status = g.status ∨
      (g.status = Hide ∧ (handleEventTick ctxDone pick now rnd g).1.status = Peak ∧
        selectCase (readyCases ctxDone g) pick = SelCase.butt) ∨
      (g.status = Peak ∧ (handleEventTick ctxDone pick now rnd g).1.status = Dizzy ∧
        selectCase (readyCases ctxDone g) pick = SelCase.head) := by
    cases hsel : selectCase (readyCases ctxDone g) pick
    · simp [handleEventTick, hsel]
    · rcases hrange with h | h | h <;>
        simp [handleEventTick, hsel, onHead, Gopher.Status, h, hhp, hhd, hpd, hpd.symm,
          hhp.symm, hhd.symm]
    · rcases hrange with h | h | h <;>
        simp [handleEventTick, hsel, onButt, Gopher.Status, h, hhp, hhd, hpd, hpd.symm,
          hhp.symm, hhd.symm]
    · simp [handleEventTick, hsel]
  have hU : (updateStatusTick ctxDone now rnd g).1.status = g.status ∨
      (g.status = Peak ∧ (updateStatusTick ctxDone now rnd g).1.status = Hide) ∨
      (g.status = Dizzy ∧ (updateStatusTick ctxDone now rnd g).1.status = Hide) := by
    cases ctxDone
    · simp only [updateStatusTick, updateSwitch, Gopher.Status, Bool.false_eq_true, if_false]
      rcases hrange with h | h | h <;> simp only [h] <;> split_ifs <;>
        simp_all
    · simp [updateStatusTick]
  have hUh : g.status = Hide → (updateStatusTick ctxDone now rnd g).1 = g := by
    intro h
    cases ctxDone <;>
      simp [updateStatusTick, updateSwitch, Gopher.Status, h, hhp, hhd]
  refine ⟨hH, hU, ?_, ?_, ?_, ?_, hUh⟩
  · rintro ⟨h, h'⟩
    rcases hH with e | ⟨_, e, _⟩ | ⟨e, _⟩
    · rw [e, h] at h'; exact hhd h'
    · rw [e] at h'; exact hpd h'
    · rw [h] at e; exact hhp e
  · rintro ⟨h, h'⟩
    rw [hUh h, h] at h'; exact hhd h'
  · rintro ⟨h, h'⟩
    rcases hH with e | ⟨e, _⟩ | ⟨e, _⟩
    · rw [e, h] at h'; exact hpd h'.symm
    · rw [h] at e; exact hhd e.symm
    · rw [h] at e; exact hpd e.symm
  · rintro ⟨h, h'⟩
    rcases hU with e | ⟨e, _⟩ | ⟨_, e⟩
    · rw [e, h] at h'; exact hpd h'.symm
    · rw [h] at e; exact hpd e.symm
    · rw [e] at h'; exact hhp h'

/-- Witness for C18: the theorem applied at a concrete state. -/
theorem C18_status_transitions_witness :
    (peaking.status = Hide ∨ peaking.status = Peak ∨ peaking.status = Dizzy) ∧
    ((updateStatusTick false 3000001000 ⟨0, 0, 0⟩ peaking).1.status = peaking.status ∨
      (peaking.status = Peak ∧
        (updateStatusTick false 3000001000 ⟨0, 0, 0⟩ peaking).1.status = Hide) ∨
      (peaking.status = Dizzy ∧
        (updateStatusTick false 3000001000 ⟨0, 0, 0⟩ peaking).1.status = Hide)) :=
  ⟨by decide,
    (C18_status_transitions peaking false 0 3000001000 ⟨0, 0, 0⟩ (by decide)).2.1⟩

/-- C19: for a mouse point with `0 ≤ x < GAME_W` and `0 ≤ y < GAME_H`, the index
`hammerIdx` is at least 0 and below the number of grid cells
`(GAME_W/GOPHER_W) * (GAME_H/GOPHER_H) = 9`; two such points have the same index
if and only if they have the same column `x / GOPHER_W` and the same row
`y / GOPHER_H`, that is, lie in the same cell of 200 by 200. -/
theorem C19_hammer_index (x y x' y' : Int)
    (hx : 0 ≤ x ∧ x < GAME_W) (hy : 0 ≤ y ∧ y < GAME_H)
    (hx' : 0 ≤ x' ∧ x' < GAME_W) (hy' : 0 ≤ y' ∧ y' < GAME_H) :
    0 ≤ hammerIdx x y ∧ hammerIdx x y < gridCells ∧ gridCells = 9 ∧
    (hammerIdx x y = hammerIdx x' y' ↔
      (Int.tdiv x GOPHER_W = Int.tdiv x' GOPHER_W ∧
        Int.tdiv y GOPHER_H = Int.tdiv y' GOPHER_H)) := by
  have hc : gridCells = 9 := by decide
  simp only [GAME_W, GAME_H] at hx hy hx' hy'
  have e1 : Int.tdiv x 200 = x / 200 := Int.tdiv_eq_ediv hx.1 (by decide)
  have e2 : Int.tdiv y 200 = y / 200 := Int.tdiv_eq_ediv hy.1 (by decide)
  have e3 : Int.tdiv x' 200 = x' / 200 := Int.tdiv_eq_ediv hx'.1 (by decide)
  have e4 : Int.tdiv y' 200 = y' / 200 := Int.tdiv_eq_ediv hy'.1 (by decide)
  have e5 : Int.tdiv 600 200 = 3 := by decide
  have hi : hammerIdx x y = x / 200 + y / 200 * 3 := by
    simp only [hammerIdx, GOPHER_W, GOPHER_H, GAME_W, e1, e2, e5]
  have hi' : hammerIdx x' y' = x' / 200 + y' / 200 * 3 := by
    simp only [hammerIdx, GOPHER_W, GOPHER_H, GAME_W, e3, e4, e5]
  simp only [GOPHER_W, GOPHER_H, e1, e2, e3, e4]
  rw [hi, hi', hc]
  refine ⟨by omega, by omega, rfl, ?_⟩
  constructor
  · intro h
    constructor <;> omega
  · rintro ⟨h1, h2⟩
    rw [h1, h2]

/-- Witness for C19: the theorem applied at concrete points. -/
theorem C19_hammer_index_witness :
    0 ≤ hammerIdx 599 599 ∧ hammerIdx 599 599 < gridCells ∧ gridCells = 9 ∧
    (hammerIdx 599 599 = hammerIdx 400 400 ↔
      (Int.tdiv 599 GOPHER_W = Int.tdiv 400 GOPHER_W ∧
        Int.tdiv 599 GOPHER_H = Int.tdiv 400 GOPHER_H)) :=
  C19_hammer_index 599 599 400 400 (by decide) (by decide) (by decide) (by decide)

end WhacAGopher
